import Mathlib

/-!
# Verification of the n8n-nodes-bunq session lifecycle and rate limiter

Shallow embedding of the core of the `n8n-nodes-bunq` repository:

* `src/utils/rateLimit.ts`        — per-credential, per-endpoint-class rate limiter;
* `src/utils/bunqApiHelpers.ts`   — 3-step handshake (installation, device
  registration, session creation), expiry policy, `ensureBunqSession`;
* `src/utils/BunqHttpClient.ts` and the divergent revision in
  `src/unnamed/part_008` — HTTP client wrapper.

Time stamps (`Date.now()` values, milliseconds) are embedded as `Int`, since
the JavaScript arithmetic `now - windowStart` is signed and a stale `now`
can make the difference negative.  JavaScript string/number truthiness is
embedded explicitly (`none` and `some ""` are falsy for strings, `none` and
`some 0` for numbers).
-/

/-! ## Session expiry (`bunqApiHelpers.ts`, `isSessionExpired`, lines 202-208) -/

/-- `isSessionExpired(createdAt, sessionTimeout?)` from `bunqApiHelpers.ts`.
`Date.now()` is passed explicitly as `now`.  The source computes
`timeoutSeconds = sessionTimeout || 604800` (JavaScript `||`: `undefined`
and `0` both fall back to the default) and
`maxAge = (timeoutSeconds * 0.5) * 1000`, which is exactly
`timeoutSeconds * 500` (multiplication by `0.5` and by `1000` is exact in
IEEE doubles at these magnitudes), then returns `Date.now() - createdAt > maxAge`. -/
def isSessionExpired (now createdAt : Int) (sessionTimeout : Option Nat) : Bool :=
  let timeoutSeconds : Nat :=
    match sessionTimeout with
    | none => 604800
    | some n => if n = 0 then 604800 else n
  let maxAge : Int := (timeoutSeconds : Int) * 500
  now - createdAt > maxAge

/-- The reported session timeout after the fallback of `bunqApiHelpers.ts`:
a missing (or JavaScript-falsy, i.e. zero) timeout is replaced by the
604800-second default. -/
def reportedTimeout (sessionTimeout : Option Nat) : Nat :=
  match sessionTimeout with
  | none => 604800
  | some n => if n = 0 then 604800 else n

/-- The spec's expiry policy, written independently of the code: the session
is expired once the elapsed time (ms) exceeds 50% of the reported timeout
(seconds), i.e. `2 * elapsedMs > reportedTimeoutSeconds * 1000`. -/
def sessionExpiredSpec (now createdAt : Int) (sessionTimeout : Option Nat) : Prop :=
  2 * (now - createdAt) > (reportedTimeout sessionTimeout : Int) * 1000

/-! ## HTTP client request traces (C3)

Two divergent revisions of `BunqHttpClient.request` exist in the repository:
`src/utils/BunqHttpClient.ts` (never touches the rate limiter) and
`src/unnamed/part_008` (awaits `enforceRateLimit` before sending).  Each is
embedded as the ordered trace of its externally visible effects. -/

/-- Externally visible effects of one `BunqHttpClient.request` call. -/
inductive HttpEvent where
  /-- `await this.context.getCredentials(...)` (part_008 `initialize()`). -/
  | credentialsFetch (credType : String)
  /-- `await enforceRateLimit(this.context, method, url)` completed. -/
  | rateLimitAcquire (method url : String)
  /-- `await this.context.helpers.httpRequest(...)` — the outbound network request. -/
  | httpSend (method url : String)
deriving DecidableEq, Repr

/-- Effect trace of `request` in `src/utils/BunqHttpClient.ts` (lines 57-107):
it builds headers, optionally signs (pure), and directly performs
`this.context.helpers.httpRequest(httpRequestOptions)`.  No rate-limiter
call occurs anywhere in that file. -/
def BunqHttpClientRequestUtils (method url : String) : List HttpEvent :=
  [ .httpSend method url ]

/-- Effect trace of `request` in `src/unnamed/part_008` (lines 170-241):
`await this.initialize()` (a `getCredentials('bunqOAuth2Api')` on first use),
then `await enforceRateLimit(this.context, method, url)`, then
`httpRequest` at `baseUrl + url`. -/
def BunqHttpClientRequestPart008 (baseUrl method url : String) : List HttpEvent :=
  [ .credentialsFetch "bunqOAuth2Api",
    .rateLimitAcquire method url,
    .httpSend method (baseUrl ++ url) ]

/-- Is this event a completed rate-limiter acquisition? -/
def isRateLimitAcquire : HttpEvent → Bool
  | .rateLimitAcquire _ _ => true
  | _ => false

/-- Is this event an outbound network send? -/
def isHttpSend : HttpEvent → Bool
  | .httpSend _ _ => true
  | _ => false

/-- In trace `tr`, every network send is preceded by a completed
rate-limiter acquisition. -/
def acquireBeforeEverySend (tr : List HttpEvent) : Prop :=
  ∀ j, ∀ hj : j < tr.length, isHttpSend (tr.get ⟨j, hj⟩) = true →
    ∃ i, ∃ hi : i < tr.length, i < j ∧ isRateLimitAcquire (tr.get ⟨i, hi⟩) = true

/-! ## Authentication-mode dispatch (C4)

`ensureBunqSession` (`bunqApiHelpers.ts`, lines 304-323) first tries to load
`bunqOAuth2Api` credentials inside a `try`; a thrown `getCredentials` lands
in the `catch` and falls through to the API-key flow.  If the credentials
load, the OAuth flow is entered only when `oauthData?.access_token` is
truthy; otherwise control falls through to the API-key flow. -/

/-- `credentials.oauthTokenData` as stored by n8n: possibly absent, and its
`access_token` field possibly absent or the empty string. -/
structure OAuthTokenData where
  access_token : Option String
deriving DecidableEq, Repr

/-- The `bunqOAuth2Api` credential object, as read by `ensureBunqSession`. -/
structure BunqOAuth2Creds where
  oauthTokenData : Option OAuthTokenData
  publicKey : String
  environment : String
deriving DecidableEq, Repr

/-- JavaScript truthiness of an optional string: `undefined` and `""` are falsy. -/
def truthyStr : Option String → Bool
  | none => false
  | some s => s ≠ ""

/-- JavaScript truthiness of an optional millisecond timestamp: `undefined`
and `0` are falsy. -/
def truthyTime : Option Int → Bool
  | none => false
  | some n => n ≠ 0

/-- Which branch a call of `ensureBunqSession` takes, and its immediate
outcome class. -/
inductive AuthFlow where
  /-- `return await ensureBunqSessionOAuth.call(this, forceRecreate)`. -/
  | oauthFlow
  /-- fell through to the API-key handshake (lines 322-384). -/
  | apiKeyFlow
  /-- a `NodeApiError` configuration error was raised before any handshake. -/
  | configErrorRaised
deriving DecidableEq, Repr

/-- The dispatch of `ensureBunqSession` (`bunqApiHelpers.ts` lines 308-320):
`oauthCreds = none` models `getCredentials('bunqOAuth2Api')` throwing (the
`catch` falls through).  With credentials present, the line
`if (oauthCredentials && oauthData?.access_token)` enters the OAuth flow
only when the access token is truthy; in the OAuth flow the token is
re-read and, being truthy, the `!accessToken` configuration-error branch
(lines 245-250) is not taken. -/
def ensureBunqSessionDispatch (oauthCreds : Option BunqOAuth2Creds) : AuthFlow :=
  match oauthCreds with
  | none => .apiKeyFlow
  | some c =>
    match c.oauthTokenData with
    | none => .apiKeyFlow
    | some td =>
      if truthyStr td.access_token then .oauthFlow else .apiKeyFlow

/-! ## Handshake responses and extraction (C9)

The three handshake helpers (`createInstallation`, `registerDevice`,
`createSession` in `bunqApiHelpers.ts`) issue a request through
`BunqHttpClient` — a non-2xx response makes `httpRequest` throw, which the
client enriches and rethrows (a transport/HTTP failure) — and on a 2xx
response loop over `response.Response` extracting the expected wrappers,
throwing a `NodeApiError` with a `Failed to extract ...` message when the
expected data is missing.  These two error kinds are embedded as distinct
constructors of `BunqError`. -/

/-- A transport/HTTP failure: the underlying `httpRequest` rejected
(non-2xx status or network failure). -/
structure HttpFailure where
  statusCode : Nat
deriving DecidableEq, Repr

/-- The error taxonomy of the handshake helpers. -/
inductive BunqError where
  /-- `NodeApiError` thrown by a handshake helper when a 2xx response lacks
  the expected structured payload (`Failed to extract ...`). -/
  | malformedHandshakeResponse (step : String)
  /-- the (enriched) transport error propagated from `httpRequest` on a
  non-2xx response. -/
  | apiCallFailed (statusCode : Nat)
deriving DecidableEq, Repr

/-- `{ Token: { token } }` wrapper appearing in handshake response items. -/
structure TokenWrapper where
  token : String
deriving DecidableEq, Repr

/-- `{ ServerPublicKey: { server_public_key } }` wrapper. -/
structure ServerPublicKeyWrapper where
  server_public_key : String
deriving DecidableEq, Repr

/-- `{ Id: { id } }` wrapper of the device-registration response. -/
structure IdWrapper where
  id : Int
deriving DecidableEq, Repr

/-- `UserPerson` / `UserCompany` / `UserApiKey` wrapper of the
session-creation response: carries `id` and optionally `session_timeout`. -/
structure UserWrapper where
  id : Int
  session_timeout : Option Nat
deriving DecidableEq, Repr

/-- One item of the `/installation` response array; each wrapper key may be
absent. -/
structure InstallationItem where
  Token : Option TokenWrapper := none
  ServerPublicKey : Option ServerPublicKeyWrapper := none
deriving DecidableEq, Repr

/-- One item of the `/device-server` response array. -/
structure DeviceItem where
  Id : Option IdWrapper := none
deriving DecidableEq, Repr

/-- One item of the `/session-server` response array. -/
structure SessionItem where
  Token : Option TokenWrapper := none
  UserPerson : Option UserWrapper := none
  UserCompany : Option UserWrapper := none
  UserApiKey : Option UserWrapper := none
deriving DecidableEq, Repr

/-- The extraction loop of `createInstallation` (lines 58-69): `token` and
`serverPublicKey` start as `''`; for each item, a present `Token` wrapper
overwrites `token` and a present `ServerPublicKey` wrapper overwrites
`serverPublicKey` (both `if`s are checked, last write wins). -/
def extractInstallation (items : List InstallationItem) : String × String :=
  items.foldl
    (fun acc item =>
      (match item.Token with | some w => w.token | none => acc.1,
       match item.ServerPublicKey with | some w => w.server_public_key | none => acc.2))
    ("", "")

/-- The extraction loop of `registerDevice` (lines 115-123): `deviceId`
starts as `''`; a present `Id` wrapper overwrites it with `item.Id.id.toString()`
(never the empty string). -/
def extractDeviceId (items : List DeviceItem) : String :=
  items.foldl
    (fun acc item =>
      match item.Id with | some w => toString w.id | none => acc)
    ""

/-- The extraction loop of `createSession` (lines 158-184): `token` starts
`''`, `userId` starts `''`, `sessionTimeout` starts 604800.  `Token` is an
independent `if`; the user wrappers form an `if / else if / else if` chain
(`UserPerson` first), and `session_timeout` is taken only when truthy
(`0` and `undefined` keep the previous value). -/
def extractSession (items : List SessionItem) : String × String × Nat :=
  items.foldl
    (fun acc item =>
      let token := match item.Token with | some w => w.token | none => acc.1
      let userTimeout : UserWrapper → String × Nat := fun u =>
        (toString u.id,
         match u.session_timeout with
         | some n => if n = 0 then acc.2.2 else n
         | none => acc.2.2)
      let rest : String × Nat :=
        match item.UserPerson with
        | some u => userTimeout u
        | none =>
          match item.UserCompany with
          | some u => userTimeout u
          | none =>
            match item.UserApiKey with
            | some u => userTimeout u
            | none => acc.2
      (token, rest))
    ("", "", 604800)

/-- `createInstallation`, from the point where `client.request` has settled:
a rejected request propagates the transport error; a fulfilled (2xx) one is
fed to the extraction loop, and `if (!token || !serverPublicKey)` raises the
`Failed to extract installation token or server public key` error. -/
def createInstallationResult (httpResult : Except HttpFailure (List InstallationItem)) :
    Except BunqError (String × String) :=
  match httpResult with
  | .error f => .error (.apiCallFailed f.statusCode)
  | .ok items =>
    let r := extractInstallation items
    if r.1 = "" ∨ r.2 = "" then
      .error (.malformedHandshakeResponse "installation")
    else
      .ok r

/-- `registerDevice`, from the point where `client.request` has settled:
`if (!deviceId)` raises the `Failed to extract device ID` error. -/
def registerDeviceResult (httpResult : Except HttpFailure (List DeviceItem)) :
    Except BunqError String :=
  match httpResult with
  | .error f => .error (.apiCallFailed f.statusCode)
  | .ok items =>
    let deviceId := extractDeviceId items
    if deviceId = "" then
      .error (.malformedHandshakeResponse "device-server")
    else
      .ok deviceId

/-- `createSession`, from the point where `client.request` has settled:
only `if (!token)` raises the `Failed to extract session token` error
(`userId` may remain empty without an error). -/
def createSessionResult (httpResult : Except HttpFailure (List SessionItem)) :
    Except BunqError (String × String × Nat) :=
  match httpResult with
  | .error f => .error (.apiCallFailed f.statusCode)
  | .ok items =>
    let r := extractSession items
    if r.1 = "" then
      .error (.malformedHandshakeResponse "session-server")
    else
      .ok r

/-- Does this handshake result carry the malformed-handshake error kind? -/
def isMalformed {α : Type} : Except BunqError α → Bool
  | .error (.malformedHandshakeResponse _) => true
  | _ => false

/-- Does this handshake result carry the transport/HTTP-failure error kind? -/
def isApiCallFailed {α : Type} : Except BunqError α → Bool
  | .error (.apiCallFailed _) => true
  | _ => false

/-! ## The persisted session record and `ensureBunqSession` (C6, C7, C10)

The API-key flow of `ensureBunqSession` (`bunqApiHelpers.ts` lines 322-384)
is embedded as a pure function.  The mutable pieces are made explicit:

* the `workflowStaticData.bunqSession` record is the `stored` input and the
  `persisted` output;
* `Date.now()` is the `now` parameter (held fixed during a run: the claims
  concern immediate re-calls with no time elapsed);
* the three network requests' responses are supplied by a `BunqOracle`; a
  step that is executed appends its `NetworkCall` to the trace;
* a thrown error aborts the remaining steps, leaving the record as
  persisted so far. -/

/-- The `IBunqSessionData` record persisted per credential
(`bunqApiHelpers.ts` lines 213-222).  All fields are optional. -/
structure SessionRecord where
  installationToken : Option String := none
  serverPublicKey : Option String := none
  deviceServerId : Option String := none
  sessionToken : Option String := none
  sessionCreatedAt : Option Int := none
  sessionTimeout : Option Nat := none
  userId : Option String := none
  environment : Option String := none
deriving DecidableEq, Repr

/-- The freshly-wiped record `{}`. -/
def emptyRecord : SessionRecord := {}

/-- One response per handshake endpoint; each step of a single
`ensureBunqSession` run is executed at most once. -/
structure BunqOracle where
  installationResp : Except HttpFailure (List InstallationItem)
  deviceResp : Except HttpFailure (List DeviceItem)
  sessionResp : Except HttpFailure (List SessionItem)
deriving Repr

/-- The three handshake network calls. -/
inductive NetworkCall where
  | installation
  | deviceServer
  | sessionServer
deriving DecidableEq, Repr

deriving instance DecidableEq for Except

/-- Result of one `ensureBunqSession` run: the value returned (or the error
thrown), the record left in `workflowStaticData.bunqSession`, and the
ordered network calls that were made. -/
structure EnsureRun where
  outcome : Except BunqError SessionRecord
  persisted : SessionRecord
  calls : List NetworkCall
deriving DecidableEq, Repr

/-- Step 1 condition (`line 342`): `!installationToken || !serverPublicKey`. -/
def needsInstallation (r : SessionRecord) : Bool :=
  !(truthyStr r.installationToken) || !(truthyStr r.serverPublicKey)

/-- Step 2 condition (`line 350`): `!deviceServerId`. -/
def needsDevice (r : SessionRecord) : Bool :=
  !(truthyStr r.deviceServerId)

/-- Step 3 condition (`lines 362-364`):
`!sessionToken || !sessionCreatedAt || isSessionExpired(...)` — the expiry
check is reached only when both `sessionToken` and `sessionCreatedAt` are
truthy (JavaScript `||` short-circuits). -/
def needsSession (now : Int) (r : SessionRecord) : Bool :=
  !(truthyStr r.sessionToken) || !(truthyTime r.sessionCreatedAt) ||
    isSessionExpired now (r.sessionCreatedAt.getD 0) r.sessionTimeout

/-- Step 3 of the API-key flow (lines 361-378): conditionally call
`createSession` and persist its output together with `sessionCreatedAt = Date.now()`. -/
def ensureStep3 (oracle : BunqOracle) (now : Int) (r persisted : SessionRecord)
    (calls : List NetworkCall) : EnsureRun :=
  if needsSession now r then
    match createSessionResult oracle.sessionResp with
    | .error e => ⟨.error e, persisted, calls ++ [.sessionServer]⟩
    | .ok (token, uid, timeout) =>
      let r := { r with
        sessionToken := some token
        sessionCreatedAt := some now
        userId := some uid
        sessionTimeout := some timeout }
      ⟨.ok r, r, calls ++ [.sessionServer]⟩
  else
    ⟨.ok r, persisted, calls⟩

/-- Step 2 of the API-key flow (lines 349-359): conditionally call
`registerDevice` and persist the device id, then continue with step 3. -/
def ensureStep2 (oracle : BunqOracle) (now : Int) (r persisted : SessionRecord)
    (calls : List NetworkCall) : EnsureRun :=
  if needsDevice r then
    match registerDeviceResult oracle.deviceResp with
    | .error e => ⟨.error e, persisted, calls ++ [.deviceServer]⟩
    | .ok deviceId =>
      let r := { r with deviceServerId := some deviceId }
      ensureStep3 oracle now r r (calls ++ [.deviceServer])
  else
    ensureStep3 oracle now r persisted calls

/-- Step 1 of the API-key flow (lines 341-347): conditionally call
`createInstallation` and persist the installation token and server public
key, then continue with step 2. -/
def ensureStep1 (oracle : BunqOracle) (now : Int) (r persisted : SessionRecord)
    (calls : List NetworkCall) : EnsureRun :=
  if needsInstallation r then
    match createInstallationResult oracle.installationResp with
    | .error e => ⟨.error e, persisted, calls ++ [.installation]⟩
    | .ok (token, serverPublicKey) =>
      let r := { r with
        installationToken := some token
        serverPublicKey := some serverPublicKey }
      ensureStep2 oracle now r r (calls ++ [.installation])
  else
    ensureStep2 oracle now r persisted calls

/-- The API-key flow of `ensureBunqSession` (lines 322-384).  `stored` is
`workflowStaticData.bunqSession` on entry (`{}` when unset); if
`forceRecreate` the record is wiped — and the wipe persisted — before any
network call (lines 336-339).  The final `sessionData.environment =
environment` assignment (line 381) mutates the same object that was
persisted, so it is visible in `persisted` as well. -/
def ensureBunqSessionApiKey (forceRecreate : Bool) (stored : SessionRecord)
    (oracle : BunqOracle) (now : Int) (environment : String) : EnsureRun :=
  let r := if forceRecreate then emptyRecord else stored
  let run := ensureStep1 oracle now r r []
  match run.outcome with
  | .error e => ⟨.error e, run.persisted, run.calls⟩
  | .ok final =>
    let final := { final with environment := some environment }
    ⟨.ok final, final, run.calls⟩

/-! ## Two interleaved `ensureBunqSession` callers (C2)

Under n8n's single-threaded cooperative scheduling, two workflow executions
can interleave at `await` boundaries.  Both callers obtain the *same*
`workflowStaticData.bunqSession` object (shared mutable state); each runs
the API-key flow, suspending at each handshake network call and writing the
step's output into the shared record when it resumes.  There is no lock,
queue, or in-flight-promise check anywhere in `ensureBunqSession`.  A
scheduler step for a suspended caller models its network call completing. -/

/-- Where a caller of `ensureBunqSession` is in its run. -/
inductive EnsurePhase where
  /-- about to execute the flow from the step-1 condition (credentials and
  static data already read). -/
  | startP
  /-- `await createInstallation(...)` in flight. -/
  | awaitingInstallation
  /-- `await registerDevice(...)` in flight. -/
  | awaitingDevice
  /-- `await createSession(...)` in flight. -/
  | awaitingSession
  /-- returned successfully. -/
  | doneP
  /-- a handshake step threw. -/
  | failedP
deriving DecidableEq, Repr

/-- Shared configuration of the two interleaved callers: the shared session
record, `Date.now()` (held fixed — the race happens "simultaneously"), one
response oracle per caller, each caller's phase, and the network calls made
so far, tagged by caller. -/
structure TwoCallerConfig where
  record : SessionRecord
  now : Int
  oracleA : BunqOracle
  oracleB : BunqOracle
  phaseA : EnsurePhase := .startP
  phaseB : EnsurePhase := .startP
  calls : List (Nat × NetworkCall) := []

/-- The oracle answering caller `i`'s network calls. -/
def TwoCallerConfig.oracleOf (c : TwoCallerConfig) (i : Nat) : BunqOracle :=
  if i = 0 then c.oracleA else c.oracleB

/-- The phase of caller `i`. -/
def TwoCallerConfig.phaseOf (c : TwoCallerConfig) (i : Nat) : EnsurePhase :=
  if i = 0 then c.phaseA else c.phaseB

/-- Set the phase of caller `i`. -/
def TwoCallerConfig.setPhase (c : TwoCallerConfig) (i : Nat) (p : EnsurePhase) :
    TwoCallerConfig :=
  if i = 0 then { c with phaseA := p } else { c with phaseB := p }

/-- The step-3 condition evaluated synchronously against the *current*
shared record (lines 361-366); when a session must be created, the caller
issues the `/session-server` call and suspends. -/
def checkStep3Two (c : TwoCallerConfig) (i : Nat) : TwoCallerConfig :=
  if needsSession c.now c.record then
    { c.setPhase i .awaitingSession with calls := c.calls ++ [(i, .sessionServer)] }
  else
    c.setPhase i .doneP

/-- The step-2 condition (line 350), continuing into step 3 when skipped. -/
def checkStep2Two (c : TwoCallerConfig) (i : Nat) : TwoCallerConfig :=
  if needsDevice c.record then
    { c.setPhase i .awaitingDevice with calls := c.calls ++ [(i, .deviceServer)] }
  else
    checkStep3Two c i

/-- The step-1 condition (line 342), continuing into step 2 when skipped. -/
def checkStep1Two (c : TwoCallerConfig) (i : Nat) : TwoCallerConfig :=
  if needsInstallation c.record then
    { c.setPhase i .awaitingInstallation with calls := c.calls ++ [(i, .installation)] }
  else
    checkStep2Two c i

/-- One scheduler step of caller `i`: a caller at `startP` runs
synchronously up to its first suspension; a suspended caller's network call
completes, its output is written into the shared record, and it continues
synchronously to its next suspension (or completion). -/
def stepCaller (c : TwoCallerConfig) (i : Nat) : TwoCallerConfig :=
  match c.phaseOf i with
  | .startP => checkStep1Two c i
  | .awaitingInstallation =>
    match createInstallationResult (c.oracleOf i).installationResp with
    | .error _ => c.setPhase i .failedP
    | .ok (token, serverPublicKey) =>
      let c := { c with record := { c.record with
        installationToken := some token
        serverPublicKey := some serverPublicKey } }
      checkStep2Two c i
  | .awaitingDevice =>
    match registerDeviceResult (c.oracleOf i).deviceResp with
    | .error _ => c.setPhase i .failedP
    | .ok deviceId =>
      let c := { c with record := { c.record with deviceServerId := some deviceId } }
      checkStep3Two c i
  | .awaitingSession =>
    match createSessionResult (c.oracleOf i).sessionResp with
    | .error _ => c.setPhase i .failedP
    | .ok (token, uid, timeout) =>
      let c := { c with record := { c.record with
        sessionToken := some token
        sessionCreatedAt := some c.now
        userId := some uid
        sessionTimeout := some timeout } }
      c.setPhase i .doneP
  | .doneP => c
  | .failedP => c

/-- Run a schedule: a list of caller ids, each entry one scheduler step. -/
def runTwoCallers (sched : List Nat) (c : TwoCallerConfig) : TwoCallerConfig :=
  sched.foldl stepCaller c

/-- How many `/session-server` network calls a configuration has seen. -/
def sessionCallCount (c : TwoCallerConfig) : Nat :=
  c.calls.countP (fun p => p.2 = .sessionServer)

/-! ## Rate limiter: quotas, classification and keys (`rateLimit.ts`) -/

/-- One endpoint class's quota (`RATE_LIMITS` entries, lines 13-30). -/
structure RateLimitCfg where
  maxRequests : Nat
  windowMs : Int
deriving DecidableEq, Repr

/-- `RATE_LIMITS.GET`: 3 requests / 3000 ms. -/
def RATE_LIMITS_GET : RateLimitCfg := ⟨3, 3000⟩

/-- `RATE_LIMITS.POST`: 5 requests / 3000 ms. -/
def RATE_LIMITS_POST : RateLimitCfg := ⟨5, 3000⟩

/-- `RATE_LIMITS.PUT`: 2 requests / 3000 ms. -/
def RATE_LIMITS_PUT : RateLimitCfg := ⟨2, 3000⟩

/-- `RATE_LIMITS.SESSION_SERVER`: 1 request / 30000 ms. -/
def RATE_LIMITS_SESSION_SERVER : RateLimitCfg := ⟨1, 30000⟩

/-- The characters of `url` before the first `'?'` or `'#'` — the effect of
`url.split('?')[0].split('#')[0]`. -/
def takeUntilQueryOrFragment : List Char → List Char
  | [] => []
  | c :: cs => if c = '?' ∨ c = '#' then [] else c :: takeUntilQueryOrFragment cs

/-- The path normalization of `enforceRateLimit` (lines 86-94): strip the
query string and fragment.  (The `new URL(url, 'https://dummy.com')` branch
yields the same `pathname` for the relative `/...` endpoint paths this
client passes; the `catch` branch is literally
`url.split('?')[0].split('#')[0]`, i.e. the prefix before the first `'?'`
or `'#'`.) -/
def urlPath (url : String) : String :=
  ⟨takeUntilQueryOrFragment url.data⟩

/-- `a.endsWith(b)`, computed on the character lists: `a` ends with `b` iff
dropping `a.length - b.length` leading characters of `a` leaves `b`. -/
def strEndsWith (a b : String) : Bool :=
  a.data.drop (a.data.length - b.data.length) = b.data

/-- Line 95: `urlPath === '/session-server' || urlPath.endsWith('/session-server')`. -/
def isSessionServerPath (p : String) : Bool :=
  p = "/session-server" || strEndsWith p "/session-server"

/-- The classification of lines 95-121: a session-server path gets the
dedicated class and the `session-server` key suffix; otherwise the
upper-cased method maps GET/POST/PUT to its class (key suffix = the
method); any other method is unthrottled (`none`: the function returns
without touching any window). -/
def rateLimitClassify (method url : String) : Option (RateLimitCfg × String) :=
  if isSessionServerPath (urlPath url) then
    some (RATE_LIMITS_SESSION_SERVER, "session-server")
  else
    let upperMethod := method.toUpper
    if upperMethod = "GET" then some (RATE_LIMITS_GET, upperMethod)
    else if upperMethod = "POST" then some (RATE_LIMITS_POST, upperMethod)
    else if upperMethod = "PUT" then some (RATE_LIMITS_PUT, upperMethod)
    else none

/-- The full map key (lines 102 and 120):
`rateLimit:bunqApi:{credentialHash}:{suffix}`. -/
def rateLimitKey (credentialHash suffix : String) : String :=
  "rateLimit:bunqApi:" ++ credentialHash ++ ":" ++ suffix

/-! ## Rate limiter: sequential (serialized) acquisition semantics (C8)

Here each `enforceRateLimit` call runs to completion (including its sleep)
before the next one starts — the serialized regime in which the per-window
book-keeping of lines 126-188 is exercised without interleaving.  In this
regime `state.pendingPromise` is `null` at every call entry (it is set and
cleared within a single call), so the window state is just
`{windowStart, count}`.  All calls share one credential, so windows are
keyed by the key *suffix*; `rateLimitKey` is injective in the suffix (see
`rateLimitKey_inj`), so this is the same keying as the source's `Map`. -/

/-- A rate-limit window record (`RateLimitState` minus the pending promise,
which is `null` at every sequential observation point). -/
structure RLWindow where
  windowStart : Int
  count : Nat
deriving DecidableEq, Repr

/-- Look up a key in the window table. -/
def storeGet (st : List (String × RLWindow)) (k : String) : Option RLWindow :=
  (st.find? (fun p => p.1 = k)).map Prod.snd

/-- Write a key in the window table (replace or append). -/
def storeSet (st : List (String × RLWindow)) (k : String) (w : RLWindow) :
    List (String × RLWindow) :=
  match st with
  | [] => [(k, w)]
  | (k', w') :: rest =>
    if k' = k then (k, w) :: rest else (k', w') :: storeSet rest k w

/-- One serialized `enforceRateLimit` acquisition on window `key` at arrival
time `now`; returns the updated table and the admission time (when line 187
runs and the call returns).  Mirrors lines 126-188: lazily create the
window (`windowStart = now, count = 0`); reset it if
`now - windowStart >= windowMs`; if `count >= maxRequests`, sleep
`waitMs = windowMs - (now - windowStart)` when positive, then restart the
window at the post-sleep `Date.now()` with `count = 0`; finally
`count += 1`. -/
def seqEnforceRateLimit (cfg : RateLimitCfg) (key : String)
    (store : List (String × RLWindow)) (now : Int) :
    List (String × RLWindow) × Int :=
  let w := match storeGet store key with
    | some w => w
    | none => ⟨now, 0⟩
  let w := if now - w.windowStart ≥ cfg.windowMs then ⟨now, 0⟩ else w
  if cfg.maxRequests ≤ w.count then
    let waitMs := cfg.windowMs - (now - w.windowStart)
    let t := if 0 < waitMs then now + waitMs else now
    (storeSet store key ⟨t, 1⟩, t)
  else
    (storeSet store key ⟨w.windowStart, w.count + 1⟩, now)

/-- A rate-limited call in a serialized trace: it arrives `delayMs ≥ 0`
after the previous call returned. -/
structure SeqCall where
  delayMs : Nat
  method : String
  url : String
deriving DecidableEq, Repr

/-- State of a serialized trace: the window table, the current time (the
return time of the last call), and the admissions so far as
(key suffix, admission time), in order. -/
structure SeqTraceState where
  store : List (String × RLWindow)
  time : Int
  admissions : List (String × Int)
deriving DecidableEq, Repr

/-- Process one serialized call: unthrottled methods return immediately;
otherwise the classified window admits the call (possibly after a sleep). -/
def seqStepCall (s : SeqTraceState) (c : SeqCall) : SeqTraceState :=
  let t := s.time + (c.delayMs : Int)
  match rateLimitClassify c.method c.url with
  | none => { s with time := t }
  | some (cfg, suffix) =>
    let (store, adm) := seqEnforceRateLimit cfg suffix s.store t
    ⟨store, adm, s.admissions ++ [(suffix, adm)]⟩

/-- Run a serialized trace from an empty table at start time `t0`. -/
def seqRun (calls : List SeqCall) (t0 : Int) : SeqTraceState :=
  calls.foldl seqStepCall ⟨[], t0, []⟩

/-- The admission times of the dedicated session-server class, in order. -/
def sessionServerAdmissions (s : SeqTraceState) : List Int :=
  (s.admissions.filter (fun p => p.1 = "session-server")).map Prod.snd

/-! ## Rate limiter: cooperative (interleaved) semantics (C1)

`enforceRateLimit` suspends in two places: `await state.pendingPromise`
(line 145) and `await waitPromise` (line 172).  Under Node's single-threaded
event loop, several logical callers of the *same* window can interleave at
these points.  The executor below is a faithful deterministic event loop
for callers of one window (the session-server window of one credential):

* a runnable continuation runs synchronously to its next `await`;
* `sleep(ms)` registers a timer waking at `Date.now() + ms`;
* when a timer fires, its sleeper resumes first, then the callers that
  awaited `state.pendingPromise` (the same promise object), in registration
  order — exactly Node's resolution order for a promise's `.then` chain;
* with an empty microtask queue, the earliest-waking timer fires (ties in
  registration order), and pending caller arrivals are macrotasks with
  their own start times.

A caller's continuation after line 145 re-enters at line 149 with the
*stale* `now` captured at line 126 and does **not** re-check
`state.pendingPromise` — this is where the burst comes from. -/

/-- The full `RateLimitState` of `rateLimit.ts` (lines 35-39): window start,
count, and the stored pending promise (identified by its timer id). -/
structure RLWinState where
  windowStart : Int
  count : Nat
  pendingPromise : Option Nat
deriving DecidableEq, Repr

/-- A live `setTimeout` timer: its id (= registration order), absolute wake
time, the caller sleeping on it (`await waitPromise`), and the callers that
awaited `state.pendingPromise` while it was stored there, with the stale
`now` each captured at its line 126. -/
structure RLTimer where
  id : Nat
  wake : Int
  sleeper : Nat
  awaiters : List (Nat × Int)
deriving DecidableEq, Repr

/-- A runnable continuation of some caller. -/
inductive RLTask where
  /-- the caller starts `enforceRateLimit` (runs from line 126). -/
  | startT (thread : Nat)
  /-- the caller resumed from `await state.pendingPromise` (line 146) and
  re-enters at line 149 with its stale `now`. -/
  | contPendingT (thread : Nat) (localNow : Int)
  /-- the caller's own `sleep(waitMs)` finished (resumes at line 173). -/
  | contSleepT (thread : Nat)
deriving DecidableEq, Repr

/-- Event-loop configuration for callers of one session-server window. -/
structure RLConfig where
  time : Int
  window : Option RLWinState
  timers : List RLTimer
  runQueue : List RLTask
  arrivals : List (Nat × Int)
  nextId : Nat
  admissions : List (Nat × Int)
deriving DecidableEq, Repr

/-- Lines 148-188 with the caller's captured `now`: reset the window if
`now - windowStart >= windowMs` (with the possibly stale `now`!); if
`count >= maxRequests`, either sleep (`waitMs > 0`: store a fresh timer in
`state.pendingPromise` and suspend) or restart the window immediately;
otherwise `count += 1` admits the caller at the current real time. -/
def runCritical (c : RLConfig) (thread : Nat) (localNow : Int) : RLConfig :=
  match c.window with
  | none => c
  | some w =>
    let cfg := RATE_LIMITS_SESSION_SERVER
    let w := if localNow - w.windowStart ≥ cfg.windowMs then
        { w with windowStart := localNow, count := 0 }
      else w
    if cfg.maxRequests ≤ w.count then
      let waitMs := cfg.windowMs - (localNow - w.windowStart)
      if 0 < waitMs then
        { c with
          window := some { w with pendingPromise := some c.nextId }
          timers := c.timers ++ [⟨c.nextId, c.time + waitMs, thread, []⟩]
          nextId := c.nextId + 1 }
      else
        { c with
          window := some ⟨c.time, 1, w.pendingPromise⟩
          admissions := c.admissions ++ [(thread, c.time)] }
    else
      { c with
        window := some { w with count := w.count + 1 }
        admissions := c.admissions ++ [(thread, c.time)] }

/-- Run one runnable continuation to its next suspension (or return). -/
def runTask (c : RLConfig) : RLTask → RLConfig
  | .startT thread =>
    -- line 126: now = Date.now(); lines 128-139: lazily create the window
    let localNow := c.time
    let c := match c.window with
      | none => { c with window := some ⟨localNow, 0, none⟩ }
      | some _ => c
    match c.window with
    | none => c
    | some w =>
      match w.pendingPromise with
      | some pid =>
        -- line 145: await state.pendingPromise — register on that promise
        { c with timers := c.timers.map (fun t =>
            if t.id = pid then { t with awaiters := t.awaiters ++ [(thread, localNow)] }
            else t) }
      | none => runCritical c thread localNow
  | .contPendingT thread localNow => runCritical c thread localNow
  | .contSleepT thread =>
    -- lines 173-187: pendingPromise = null; windowStart = Date.now();
    -- count = 0; count += 1 — admitted at the wake time
    match c.window with
    | none => c
    | some _ =>
      { c with
        window := some ⟨c.time, 1, none⟩
        admissions := c.admissions ++ [(thread, c.time)] }

/-- The earliest-firing timer: least wake time, ties by registration id
(Node fires equal-deadline timers in registration order). -/
def earliestTimer (ts : List RLTimer) : Option RLTimer :=
  ts.foldl
    (fun acc t =>
      match acc with
      | none => some t
      | some b =>
        if t.wake < b.wake || (t.wake = b.wake && t.id < b.id) then some t else some b)
    none

/-- Fire a timer: advance the clock to its wake time and make its sleeper
runnable, followed by the promise awaiters in registration order. -/
def fireTimer (c : RLConfig) (tm : RLTimer) : RLConfig :=
  { c with
    time := tm.wake
    timers := c.timers.filter (fun t => t.id ≠ tm.id)
    runQueue := c.runQueue ++ [.contSleepT tm.sleeper]
      ++ tm.awaiters.map (fun p => .contPendingT p.1 p.2) }

/-- One event-loop step: run the next runnable continuation; otherwise admit
the next arrival or fire the earliest timer, whichever is due first
(arrival first on a tie). -/
def loopStep (c : RLConfig) : RLConfig :=
  match c.runQueue with
  | task :: rest => runTask { c with runQueue := rest } task
  | [] =>
    match c.arrivals, earliestTimer c.timers with
    | [], none => c
    | (th, tArr) :: restArr, none =>
      { c with time := tArr, arrivals := restArr, runQueue := [.startT th] }
    | (th, tArr) :: restArr, some tm =>
      if tArr ≤ tm.wake then
        { c with time := tArr, arrivals := restArr, runQueue := [.startT th] }
      else fireTimer c tm
    | [], some tm => fireTimer c tm

/-- Run the event loop for `fuel` steps. -/
def runLoop : Nat → RLConfig → RLConfig
  | 0, c => c
  | fuel + 1, c => runLoop fuel (loopStep c)

/-- The burst scenario: caller 0 acquires the session-server window at
t = 0 (admitted immediately, `count = 1`); callers 1, 2, 3 all call
`enforceRateLimit` at t = 100.  Caller 1 sleeps until t = 30000 and stores
its promise; callers 2 and 3 chain on that promise.  At t = 30000 caller 1
is admitted; callers 2 and 3 each re-enter with their stale `now = 100`,
both still see `count = 1`, and both start their own 59900 ms sleep.  At
t = 89900 both wake: each resets the window and is admitted. -/
def burstScenarioInit : RLConfig :=
  ⟨0, none, [], [], [(0, 0), (1, 100), (2, 100), (3, 100)], 0, []⟩

/-- The final configuration of the burst scenario. -/
def burstScenarioFinal : RLConfig := runLoop 40 burstScenarioInit

/-- How many admitted calls of `adms` fall in the window `[ws, ws + len)`. -/
def admissionsWithin (adms : List (Nat × Int)) (ws len : Int) : Nat :=
  adms.countP (fun p => ws ≤ p.2 && p.2 < ws + len)

/-! ## Theorems -/

/-- C5: `isSessionExpired` judges a session expired exactly when the elapsed
time exceeds 50% of the reported session timeout (604800 s when absent);
with `sessionTimeout = 1000` s, a session created 501 s ago is expired and
one created 499 s ago is valid. -/
theorem isSessionExpired_halfTimeout_C5 :
    (∀ (now createdAt : Int) (st : Option Nat),
      isSessionExpired now createdAt st = true ↔ sessionExpiredSpec now createdAt st)
    ∧ isSessionExpired 501000 0 (some 1000) = true
    ∧ isSessionExpired 499000 0 (some 1000) = false := by
  refine ⟨fun now createdAt st => ?_, by decide, by decide⟩
  simp only [isSessionExpired, sessionExpiredSpec, reportedTimeout, decide_eq_true_eq]
  cases st with
  | none => omega
  | some n =>
    by_cases hn : n = 0 <;> simp only [hn, if_true, if_false, reduceIte] <;> omega


/-- C3 counterexample: in the `src/utils/BunqHttpClient.ts` revision, the
concrete call `request({method: 'POST', url: '/installation', ...})` sends
its network request without any preceding (or any) `enforceRateLimit`
acquisition, refuting the claim as stated for that revision. -/
theorem utilsRequest_sends_without_acquire :
    ¬ acquireBeforeEverySend (BunqHttpClientRequestUtils "POST" "/installation") := by
  intro h
  obtain ⟨i, hi, hlt, -⟩ := h 0 (by decide) (by decide)
  exact Nat.not_lt_zero i hlt

/-- C3 (amended): in the `src/unnamed/part_008` revision of
`BunqHttpClient.request`, every outbound network send is preceded by a
completed `enforceRateLimit` acquisition (and a send does occur), for every
method and url; the `src/utils/BunqHttpClient.ts` revision of `request`
never invokes the rate limiter at all. -/
theorem part008Request_acquires_before_send_C3 :
    (∀ baseUrl method url,
      acquireBeforeEverySend (BunqHttpClientRequestPart008 baseUrl method url)
      ∧ (BunqHttpClientRequestPart008 baseUrl method url).any isHttpSend = true)
    ∧ (∀ method url,
      (BunqHttpClientRequestUtils method url).any isRateLimitAcquire = false) := by
  constructor
  · intro b m u
    constructor
    · intro j hj hsend
      have hj3 : j < 3 := by simpa [BunqHttpClientRequestPart008] using hj
      interval_cases j
      · simp [BunqHttpClientRequestPart008, isHttpSend] at hsend
      · simp [BunqHttpClientRequestPart008, isRateLimitAcquire, isHttpSend] at hsend
      · exact ⟨1, by simp [BunqHttpClientRequestPart008], Nat.one_lt_two, rfl⟩
    · simp [BunqHttpClientRequestPart008, isHttpSend]
  · intro m u
    simp [BunqHttpClientRequestUtils, isRateLimitAcquire]

/-- The OAuth access token read by the dispatch of `ensureBunqSession`
(`oauthData?.access_token`). -/
def oauthAccessToken (c : BunqOAuth2Creds) : Option String :=
  match c.oauthTokenData with
  | none => none
  | some td => td.access_token

/-- Configured OAuth credentials whose token data carries no access token. -/
def missingTokenCreds : BunqOAuth2Creds :=
  { oauthTokenData := some { access_token := none }
    publicKey := "pk"
    environment := "production" }

/-- C4 counterexample: with OAuth credentials configured but no access
token, `ensureBunqSession` proceeds with the API-key handshake path and
raises no configuration error — refuting the claim that it fails. -/
theorem oauth_missing_token_falls_back :
    ensureBunqSessionDispatch (some missingTokenCreds) = AuthFlow.apiKeyFlow
    ∧ ensureBunqSessionDispatch (some missingTokenCreds) ≠ AuthFlow.configErrorRaised := by
  decide

/-- C4 (amended): if OAuth credentials are configured but their access
token is missing or empty, `ensureBunqSession` silently proceeds with the
API-key handshake path for that credential; the configuration error inside
the OAuth path is unreachable in that case. -/
theorem oauth_missing_token_apiKey_C4 (c : BunqOAuth2Creds)
    (h : truthyStr (oauthAccessToken c) = false) :
    ensureBunqSessionDispatch (some c) = AuthFlow.apiKeyFlow := by
  unfold oauthAccessToken at h
  cases hc : c.oauthTokenData with
  | none => simp [ensureBunqSessionDispatch, hc]
  | some td =>
    rw [hc] at h
    simp [ensureBunqSessionDispatch, hc, h]

/-- C4 witness: the amended theorem applied to OAuth credentials with a
missing access token. -/
theorem oauth_missing_token_apiKey_C4_witness :
    truthyStr (oauthAccessToken missingTokenCreds) = false
    ∧ ensureBunqSessionDispatch (some missingTokenCreds) = AuthFlow.apiKeyFlow :=
  ⟨by decide, oauth_missing_token_apiKey_C4 missingTokenCreds (by decide)⟩

/-- C1: evaluating `enforceRateLimit`'s cooperative semantics at the burst
interleaving (one admitted session-server call at t = 0, then three
concurrent callers at t = 100) admits callers 2 and 3 both at t = 89900 —
two admissions inside the single window `[89900, 119900)` of the
session-server class, whose `maxRequests` is 1.  The check-wait-increment
sequence is not atomic per window key: a caller that awaited
`state.pendingPromise` never re-checks it, and concurrent sleepers
overwrite it, so each sleeper resets the window and admits itself. -/
theorem rateLimit_window_burst_C1 :
    burstScenarioFinal.admissions = [(0, 0), (1, 30000), (2, 89900), (3, 89900)]
    ∧ admissionsWithin burstScenarioFinal.admissions 89900
        RATE_LIMITS_SESSION_SERVER.windowMs = 2
    ∧ RATE_LIMITS_SESSION_SERVER.maxRequests = 1 := by
  refine ⟨by decide, by decide, rfl⟩

/-- A response oracle whose three handshake calls all succeed with
well-formed payloads. -/
def okSessionOracle : BunqOracle :=
  { installationResp := .ok [{ Token := some ⟨"itok"⟩, ServerPublicKey := some ⟨"spk"⟩ }]
    deviceResp := .ok [{ Id := some ⟨42⟩ }]
    sessionResp := .ok [{ Token := some ⟨"stok"⟩, UserPerson := some ⟨7, some 604800⟩ }] }

/-- A fully populated session record whose session (created at t = 1000 with
a 1000 s timeout) is expired at t = 1000000. -/
def expiredRecord : SessionRecord :=
  { installationToken := some "itok"
    serverPublicKey := some "spk"
    deviceServerId := some "42"
    sessionToken := some "stok"
    sessionCreatedAt := some 1000
    sessionTimeout := some 1000
    userId := some "7"
    environment := some "production" }

/-- Two simultaneous callers over the shared `expiredRecord`. -/
def raceConfig : TwoCallerConfig :=
  { record := expiredRecord
    now := 1000000
    oracleA := okSessionOracle
    oracleB := okSessionOracle }

/-- C2 counterexample: two interleaved `ensureBunqSession` calls for the
same expired credential (schedule: caller 0 runs to its session-creation
await, caller 1 runs to its own session-creation await, then both resume)
make **two** session-creation network calls, not one. -/
theorem ensureSession_race_two_session_calls :
    sessionCallCount (runTwoCallers [0, 1, 0, 1] raceConfig) = 2
    ∧ sessionCallCount (runTwoCallers [0, 1, 0, 1] raceConfig) ≠ 1 := by
  decide

/-- C2 (amended): for every shared record whose installation and device
steps are cached but whose session must be (re)created, two simultaneous
`ensureBunqSession` callers that interleave at the session-creation network
call each issue their own `/session-server` request — two session-creation
network calls in total.  Nothing in `ensureBunqSession` makes the second
caller wait for the first's in-flight refresh. -/
theorem ensureSession_race_amended_C2 (r : SessionRecord) (oa ob : BunqOracle)
    (now : Int) (h1 : needsInstallation r = false) (h2 : needsDevice r = false)
    (h3 : needsSession now r = true) :
    sessionCallCount (runTwoCallers [0, 1, 0, 1]
      { record := r, now := now, oracleA := oa, oracleB := ob }) = 2 := by
  rcases hA : createSessionResult oa.sessionResp with eA | ⟨tA, uA, sA⟩ <;>
    rcases hB : createSessionResult ob.sessionResp with eB | ⟨tB, uB, sB⟩ <;>
      simp [runTwoCallers, stepCaller, TwoCallerConfig.phaseOf, TwoCallerConfig.setPhase,
        TwoCallerConfig.oracleOf, checkStep1Two, checkStep2Two, checkStep3Two,
        h1, h2, h3, hA, hB, sessionCallCount]

/-- C2 witness: the amended theorem applied to the concrete expired record
and succeeding oracles. -/
theorem ensureSession_race_amended_C2_witness :
    needsInstallation expiredRecord = false
    ∧ needsDevice expiredRecord = false
    ∧ needsSession 1000000 expiredRecord = true
    ∧ sessionCallCount (runTwoCallers [0, 1, 0, 1]
        { record := expiredRecord, now := 1000000,
          oracleA := okSessionOracle, oracleB := okSessionOracle }) = 2 :=
  ⟨by decide, by decide, by decide,
    ensureSession_race_amended_C2 expiredRecord okSessionOracle okSessionOracle 1000000
      (by decide) (by decide) (by decide)⟩

/-- C9: for each handshake step, a fulfilled (2xx) response whose extracted
payload is missing the expected data (installation token or server public
key; device id; session token) yields the malformed-handshake error, and a
rejected (non-2xx) request yields the api-call-failed error; the two error
kinds are distinct constructors of `BunqError`. -/
theorem handshake_error_kinds_C9 :
    (∀ items : List InstallationItem,
      isMalformed (createInstallationResult (Except.ok items)) = true ↔
        ((extractInstallation items).1 = "" ∨ (extractInstallation items).2 = ""))
    ∧ (∀ items : List DeviceItem,
      isMalformed (registerDeviceResult (Except.ok items)) = true ↔
        extractDeviceId items = "")
    ∧ (∀ items : List SessionItem,
      isMalformed (createSessionResult (Except.ok items)) = true ↔
        (extractSession items).1 = "")
    ∧ (∀ f : HttpFailure,
      isApiCallFailed (createInstallationResult (Except.error f)) = true
      ∧ isApiCallFailed (registerDeviceResult (Except.error f)) = true
      ∧ isApiCallFailed (createSessionResult (Except.error f)) = true)
    ∧ (∀ s n, BunqError.malformedHandshakeResponse s ≠ BunqError.apiCallFailed n) := by
  refine ⟨fun items => ?_, fun items => ?_, fun items => ?_,
    fun f => ⟨rfl, rfl, rfl⟩, fun s n h => BunqError.noConfusion h⟩
  · by_cases h : (extractInstallation items).1 = "" ∨ (extractInstallation items).2 = "" <;>
      simp [createInstallationResult, isMalformed, h]
  · by_cases h : extractDeviceId items = "" <;>
      simp [registerDeviceResult, isMalformed, h]
  · by_cases h : (extractSession items).1 = "" <;>
      simp [createSessionResult, isMalformed, h]

/-! ## Helper lemmas for `ensureBunqSessionApiKey` -/

/-- Did this handshake step result succeed? -/
def exceptOk {ε α : Type} : Except ε α → Bool
  | .ok _ => true
  | .error _ => false

/-- All three handshake steps of the oracle succeed with well-formed
payloads. -/
def oracleOk (o : BunqOracle) : Bool :=
  exceptOk (createInstallationResult o.installationResp)
    && exceptOk (registerDeviceResult o.deviceResp)
    && exceptOk (createSessionResult o.sessionResp)

theorem exceptOk_iff {ε α : Type} (r : Except ε α) :
    exceptOk r = true ↔ ∃ v, r = .ok v := by
  cases r <;> simp [exceptOk]

theorem createInstallationResult_ok_ne (resp : Except HttpFailure (List InstallationItem))
    (v : String × String) (h : createInstallationResult resp = .ok v) :
    v.1 ≠ "" ∧ v.2 ≠ "" := by
  cases resp with
  | error f => simp [createInstallationResult] at h
  | ok items =>
    by_cases hcond : (extractInstallation items).1 = "" ∨ (extractInstallation items).2 = ""
    · simp [createInstallationResult, hcond] at h
    · simp [createInstallationResult, hcond] at h
      rw [← h]
      exact not_or.mp hcond

theorem registerDeviceResult_ok_ne (resp : Except HttpFailure (List DeviceItem))
    (v : String) (h : registerDeviceResult resp = .ok v) : v ≠ "" := by
  cases resp with
  | error f => simp [registerDeviceResult] at h
  | ok items =>
    by_cases hcond : extractDeviceId items = ""
    · simp [registerDeviceResult, hcond] at h
    · simp [registerDeviceResult, hcond] at h
      rw [← h]
      exact hcond

theorem createSessionResult_ok_ne (resp : Except HttpFailure (List SessionItem))
    (v : String × String × Nat) (h : createSessionResult resp = .ok v) : v.1 ≠ "" := by
  cases resp with
  | error f => simp [createSessionResult] at h
  | ok items =>
    by_cases hcond : (extractSession items).1 = ""
    · simp [createSessionResult, hcond] at h
    · simp [createSessionResult, hcond] at h
      rw [← h]
      exact hcond

theorem needsDevice_installUpdate (r : SessionRecord) (t k : String) :
    needsDevice { r with installationToken := some t, serverPublicKey := some k }
      = needsDevice r := rfl

theorem needsSession_installUpdate (now : Int) (r : SessionRecord) (t k : String) :
    needsSession now { r with installationToken := some t, serverPublicKey := some k }
      = needsSession now r := rfl

theorem needsSession_deviceUpdate (now : Int) (r : SessionRecord) (d : String) :
    needsSession now { r with deviceServerId := some d } = needsSession now r := rfl

theorem isSessionExpired_self (now : Int) (st : Option Nat) :
    isSessionExpired now now st = false := by
  cases st with
  | none => simp [isSessionExpired]
  | some n => by_cases hn : n = 0 <;> simp [isSessionExpired, hn]


/-- Under a well-formed oracle, `ensureBunqSessionApiKey false` makes
exactly the network calls whose step condition holds on the stored record. -/
theorem ensure_calls_eq (stored : SessionRecord) (oracle : BunqOracle)
    (now : Int) (env : String) (h : oracleOk oracle = true) :
    (ensureBunqSessionApiKey false stored oracle now env).calls
      = (if needsInstallation stored = true then [NetworkCall.installation] else [])
        ++ (if needsDevice stored = true then [NetworkCall.deviceServer] else [])
        ++ (if needsSession now stored = true then [NetworkCall.sessionServer] else []) := by
  have h3 : exceptOk (createSessionResult oracle.sessionResp) = true := by
    simp [oracleOk] at h; exact h.2
  have h2 : exceptOk (registerDeviceResult oracle.deviceResp) = true := by
    simp [oracleOk] at h; exact h.1.2
  have h1 : exceptOk (createInstallationResult oracle.installationResp) = true := by
    simp [oracleOk] at h; exact h.1.1
  obtain ⟨⟨tI, kI⟩, hI⟩ := (exceptOk_iff _).mp h1
  obtain ⟨vD, hD⟩ := (exceptOk_iff _).mp h2
  obtain ⟨⟨tS, uS, sS⟩, hS⟩ := (exceptOk_iff _).mp h3
  rcases Bool.eq_false_or_eq_true (needsInstallation stored) with c1 | c1 <;>
    rcases Bool.eq_false_or_eq_true (needsDevice stored) with c2 | c2 <;>
      rcases Bool.eq_false_or_eq_true (needsSession now stored) with c3 | c3 <;>
        simp only [needsInstallation, needsDevice, needsSession] at c1 c2 c3 <;>
        simp [ensureBunqSessionApiKey, ensureStep1, ensureStep2, ensureStep3,
          needsInstallation, needsDevice, needsSession, c1, c2, c3, hI, hD, hS]

/-- Under a well-formed oracle and a positive clock, `ensureBunqSessionApiKey
false` succeeds, persists the record it returns, and the persisted record
needs no further handshake step at the same instant. -/
theorem ensure_persisted_spec (stored : SessionRecord) (oracle : BunqOracle)
    (now : Int) (env : String) (h : oracleOk oracle = true) (hnow : 0 < now) :
    (ensureBunqSessionApiKey false stored oracle now env).outcome
        = .ok (ensureBunqSessionApiKey false stored oracle now env).persisted
    ∧ needsInstallation (ensureBunqSessionApiKey false stored oracle now env).persisted = false
    ∧ needsDevice (ensureBunqSessionApiKey false stored oracle now env).persisted = false
    ∧ needsSession now (ensureBunqSessionApiKey false stored oracle now env).persisted = false := by
  have h3 : exceptOk (createSessionResult oracle.sessionResp) = true := by
    simp [oracleOk] at h; exact h.2
  have h2 : exceptOk (registerDeviceResult oracle.deviceResp) = true := by
    simp [oracleOk] at h; exact h.1.2
  have h1 : exceptOk (createInstallationResult oracle.installationResp) = true := by
    simp [oracleOk] at h; exact h.1.1
  obtain ⟨⟨tI, kI⟩, hI⟩ := (exceptOk_iff _).mp h1
  obtain ⟨vD, hD⟩ := (exceptOk_iff _).mp h2
  obtain ⟨⟨tS, uS, sS⟩, hS⟩ := (exceptOk_iff _).mp h3
  have hIne := createInstallationResult_ok_ne _ _ hI
  have hDne := registerDeviceResult_ok_ne _ _ hD
  have hSne := createSessionResult_ok_ne _ _ hS
  have hne0 : now ≠ 0 := by omega
  rcases Bool.eq_false_or_eq_true (needsInstallation stored) with c1 | c1 <;>
    rcases Bool.eq_false_or_eq_true (needsDevice stored) with c2 | c2 <;>
      rcases Bool.eq_false_or_eq_true (needsSession now stored) with c3 | c3 <;>
        simp only [needsInstallation, needsDevice, needsSession] at c1 c2 c3 <;>
        simp [ensureBunqSessionApiKey, ensureStep1, ensureStep2, ensureStep3,
          needsInstallation, needsDevice, needsSession, c1, c2, c3, hI, hD, hS] <;>
        simp [truthyStr, truthyTime, isSessionExpired_self,
          hIne.1, hIne.2, hDne, hSne, hne0]

theorem needsInstallation_true_iff (r : SessionRecord) :
    needsInstallation r = true
      ↔ ¬(truthyStr r.installationToken = true ∧ truthyStr r.serverPublicKey = true) := by
  rcases Bool.eq_false_or_eq_true (truthyStr r.installationToken) with h1 | h1 <;>
    rcases Bool.eq_false_or_eq_true (truthyStr r.serverPublicKey) with h2 | h2 <;>
      simp [needsInstallation, h1, h2]

theorem needsDevice_true_iff (r : SessionRecord) :
    needsDevice r = true ↔ ¬(truthyStr r.deviceServerId = true) := by
  rcases Bool.eq_false_or_eq_true (truthyStr r.deviceServerId) with h1 | h1 <;>
    simp [needsDevice, h1]

theorem needsSession_true_iff (now : Int) (r : SessionRecord) :
    needsSession now r = true
      ↔ (¬(truthyStr r.sessionToken = true ∧ truthyTime r.sessionCreatedAt = true)
          ∨ isSessionExpired now (r.sessionCreatedAt.getD 0) r.sessionTimeout = true) := by
  rcases Bool.eq_false_or_eq_true (truthyStr r.sessionToken) with h1 | h1 <;>
    rcases Bool.eq_false_or_eq_true (truthyTime r.sessionCreatedAt) with h2 | h2 <;>
      simp [needsSession, h1, h2]

/-- C6: with `forceRecreate = false` and a well-formed oracle,
`ensureBunqSession`'s API-key flow performs a handshake network call if and
only if that step's cached output is not present (installation token +
server public key; device id; session token + creation timestamp), the
session step additionally when expired under the 50%-of-timeout rule — and
a second immediate call on the freshly persisted cache performs zero
network calls. -/
theorem ensure_skip_iff_C6 (stored : SessionRecord) (oracle : BunqOracle)
    (now : Int) (env : String) (h : oracleOk oracle = true) (hnow : 0 < now) :
    (NetworkCall.installation ∈ (ensureBunqSessionApiKey false stored oracle now env).calls
      ↔ ¬(truthyStr stored.installationToken = true ∧ truthyStr stored.serverPublicKey = true))
    ∧ (NetworkCall.deviceServer ∈ (ensureBunqSessionApiKey false stored oracle now env).calls
      ↔ ¬(truthyStr stored.deviceServerId = true))
    ∧ (NetworkCall.sessionServer ∈ (ensureBunqSessionApiKey false stored oracle now env).calls
      ↔ (¬(truthyStr stored.sessionToken = true ∧ truthyTime stored.sessionCreatedAt = true)
          ∨ isSessionExpired now (stored.sessionCreatedAt.getD 0) stored.sessionTimeout = true))
    ∧ (ensureBunqSessionApiKey false
        (ensureBunqSessionApiKey false stored oracle now env).persisted
        oracle now env).calls = [] := by
  have hc := ensure_calls_eq stored oracle now env h
  have hp := ensure_persisted_spec stored oracle now env h hnow
  have m1 : NetworkCall.installation ∈ (ensureBunqSessionApiKey false stored oracle now env).calls
      ↔ needsInstallation stored = true := by
    rw [hc]
    rcases Bool.eq_false_or_eq_true (needsInstallation stored) with c1 | c1 <;>
      rcases Bool.eq_false_or_eq_true (needsDevice stored) with c2 | c2 <;>
        rcases Bool.eq_false_or_eq_true (needsSession now stored) with c3 | c3 <;>
          simp [c1, c2, c3]
  have m2 : NetworkCall.deviceServer ∈ (ensureBunqSessionApiKey false stored oracle now env).calls
      ↔ needsDevice stored = true := by
    rw [hc]
    rcases Bool.eq_false_or_eq_true (needsInstallation stored) with c1 | c1 <;>
      rcases Bool.eq_false_or_eq_true (needsDevice stored) with c2 | c2 <;>
        rcases Bool.eq_false_or_eq_true (needsSession now stored) with c3 | c3 <;>
          simp [c1, c2, c3]
  have m3 : NetworkCall.sessionServer ∈ (ensureBunqSessionApiKey false stored oracle now env).calls
      ↔ needsSession now stored = true := by
    rw [hc]
    rcases Bool.eq_false_or_eq_true (needsInstallation stored) with c1 | c1 <;>
      rcases Bool.eq_false_or_eq_true (needsDevice stored) with c2 | c2 <;>
        rcases Bool.eq_false_or_eq_true (needsSession now stored) with c3 | c3 <;>
          simp [c1, c2, c3]
  refine ⟨m1.trans (needsInstallation_true_iff stored),
    m2.trans (needsDevice_true_iff stored),
    m3.trans (needsSession_true_iff now stored), ?_⟩
  have hc2 := ensure_calls_eq
    (ensureBunqSessionApiKey false stored oracle now env).persisted oracle now env h
  rw [hc2, hp.2.1, hp.2.2.1, hp.2.2.2]
  simp

/-- C6 witness: the theorem applied to a concrete record, oracle and clock;
the second immediate call performs zero network calls. -/
theorem ensure_skip_iff_C6_witness :
    oracleOk okSessionOracle = true ∧ (0 : Int) < 1000000
    ∧ (ensureBunqSessionApiKey false
        (ensureBunqSessionApiKey false expiredRecord okSessionOracle 1000000 "production").persisted
        okSessionOracle 1000000 "production").calls = [] :=
  ⟨by decide, by decide,
    (ensure_skip_iff_C6 expiredRecord okSessionOracle 1000000 "production"
      (by decide) (by decide)).2.2.2⟩

/-- C7: with `forceRecreate = true` and a well-formed oracle, the API-key
flow of `ensureBunqSession` wipes the record first — its run does not
depend on the stored record at all — and then executes all three handshake
network calls. -/
theorem ensure_force_all_steps_C7 (stored : SessionRecord) (oracle : BunqOracle)
    (now : Int) (env : String) (h : oracleOk oracle = true) :
    (ensureBunqSessionApiKey true stored oracle now env).calls
      = [NetworkCall.installation, NetworkCall.deviceServer, NetworkCall.sessionServer]
    ∧ ensureBunqSessionApiKey true stored oracle now env
        = ensureBunqSessionApiKey true emptyRecord oracle now env := by
  refine ⟨?_, rfl⟩
  have h3 : exceptOk (createSessionResult oracle.sessionResp) = true := by
    simp [oracleOk] at h; exact h.2
  have h2 : exceptOk (registerDeviceResult oracle.deviceResp) = true := by
    simp [oracleOk] at h; exact h.1.2
  have h1 : exceptOk (createInstallationResult oracle.installationResp) = true := by
    simp [oracleOk] at h; exact h.1.1
  obtain ⟨⟨tI, kI⟩, hI⟩ := (exceptOk_iff _).mp h1
  obtain ⟨vD, hD⟩ := (exceptOk_iff _).mp h2
  obtain ⟨⟨tS, uS, sS⟩, hS⟩ := (exceptOk_iff _).mp h3
  simp [ensureBunqSessionApiKey, ensureStep1, ensureStep2, ensureStep3, emptyRecord,
    needsInstallation, needsDevice, needsSession, truthyStr, truthyTime, hI, hD, hS]

/-- C7 witness: force-recreate on a fully populated cache still performs
all three handshake calls. -/
theorem ensure_force_all_steps_C7_witness :
    oracleOk okSessionOracle = true
    ∧ (ensureBunqSessionApiKey true expiredRecord okSessionOracle 5 "production").calls
        = [NetworkCall.installation, NetworkCall.deviceServer, NetworkCall.sessionServer] :=
  ⟨by decide,
    (ensure_force_all_steps_C7 expiredRecord okSessionOracle 5 "production" (by decide)).1⟩

/-- C10: `ensureBunqSession(forceRecreate = true)` wipes the persisted
record before any network call (the run is entirely independent of the
previously stored record), and each step persists immediately on success;
if the device-registration step then fails, the run aborts with the error,
the record holds only the installation output, and the previously cached
session data is gone — force-recreate is not atomic on error. -/
theorem ensure_force_wipe_C10 :
    (∀ (stored : SessionRecord) (oracle : BunqOracle) (now : Int) (env : String),
      ensureBunqSessionApiKey true stored oracle now env
        = ensureBunqSessionApiKey true emptyRecord oracle now env)
    ∧ (∀ (stored : SessionRecord) (oracle : BunqOracle) (now : Int) (env : String)
        (vI : String × String) (e : BunqError),
        createInstallationResult oracle.installationResp = .ok vI →
        registerDeviceResult oracle.deviceResp = .error e →
        (ensureBunqSessionApiKey true stored oracle now env).outcome = .error e
        ∧ (ensureBunqSessionApiKey true stored oracle now env).calls
            = [NetworkCall.installation, NetworkCall.deviceServer]
        ∧ truthyStr
            (ensureBunqSessionApiKey true stored oracle now env).persisted.installationToken
            = true
        ∧ (ensureBunqSessionApiKey true stored oracle now env).persisted.deviceServerId = none
        ∧ (ensureBunqSessionApiKey true stored oracle now env).persisted.sessionToken = none) := by
  refine ⟨fun stored oracle now env => rfl, ?_⟩
  rintro stored oracle now env ⟨tI, kI⟩ e hI hD
  have hIne := createInstallationResult_ok_ne _ _ hI
  simp [ensureBunqSessionApiKey, ensureStep1, ensureStep2, ensureStep3, emptyRecord,
    needsInstallation, needsDevice, needsSession, truthyStr, truthyTime, hI, hD,
    hIne.1, hIne.2]

/-- An oracle whose installation step succeeds but whose device-registration
response is an empty array (2xx yet missing the `Id` wrapper). -/
def failingDeviceOracle : BunqOracle :=
  { installationResp := .ok [{ Token := some ⟨"itok"⟩, ServerPublicKey := some ⟨"spk"⟩ }]
    deviceResp := .ok []
    sessionResp := .ok [] }

/-- C10 witness: after force-recreate with a failing device step, the old
cache (which held a session token) is gone and the record holds only the
installation output. -/
theorem ensure_force_wipe_C10_witness :
    createInstallationResult failingDeviceOracle.installationResp = .ok ("itok", "spk")
    ∧ registerDeviceResult failingDeviceOracle.deviceResp
        = .error (.malformedHandshakeResponse "device-server")
    ∧ (ensureBunqSessionApiKey true expiredRecord failingDeviceOracle 5 "production").outcome
        = .error (.malformedHandshakeResponse "device-server")
    ∧ (ensureBunqSessionApiKey true expiredRecord failingDeviceOracle 5 "production").persisted.sessionToken
        = none :=
  ⟨by decide, by decide,
    (ensure_force_wipe_C10.2 expiredRecord failingDeviceOracle 5 "production" ("itok", "spk")
      (.malformedHandshakeResponse "device-server") (by decide) (by decide)).1,
    (ensure_force_wipe_C10.2 expiredRecord failingDeviceOracle 5 "production" ("itok", "spk")
      (.malformedHandshakeResponse "device-server") (by decide) (by decide)).2.2.2.2⟩

/-! ## C8: the dedicated session-server class under serialized acquisition -/
theorem seqEnforce_now_le (cfg : RateLimitCfg) (key : String)
    (store : List (String × RLWindow)) (now : Int) :
    now ≤ (seqEnforceRateLimit cfg key store now).2 := by
  unfold seqEnforceRateLimit
  split <;> (simp only []; split_ifs <;> dsimp only at * <;> omega)

theorem storeGet_storeSet_self (st : List (String × RLWindow)) (k : String) (w : RLWindow) :
    storeGet (storeSet st k w) k = some w := by
  induction st with
  | nil => simp [storeGet, storeSet, List.find?]
  | cons p rest ih =>
    rcases p with ⟨k', w'⟩
    by_cases hk : k' = k
    · simp [storeGet, storeSet, hk, List.find?]
    · simp only [storeSet, hk, if_false, reduceIte]
      simp only [storeGet, List.find?] at ih ⊢
      simp [hk, ih]

theorem storeGet_storeSet_ne (st : List (String × RLWindow)) (k k' : String) (w : RLWindow)
    (h : k' ≠ k) : storeGet (storeSet st k w) k' = storeGet st k' := by
  induction st with
  | nil => simp [storeGet, storeSet, List.find?, Ne.symm h]
  | cons p rest ih =>
    rcases p with ⟨k0, w0⟩
    by_cases hk : k0 = k
    · subst hk
      simp [storeGet, storeSet, List.find?, Ne.symm h]
    · simp only [storeSet, hk, if_false, reduceIte]
      by_cases hk' : k0 = k'
      · simp [storeGet, List.find?, hk']
      · simp only [storeGet, List.find?] at ih ⊢
        simp [hk', ih]

theorem seqEnforce_store_shape (cfg : RateLimitCfg) (key : String)
    (store : List (String × RLWindow)) (now : Int) :
    ∃ w', (seqEnforceRateLimit cfg key store now).1 = storeSet store key w' := by
  unfold seqEnforceRateLimit
  split <;> (simp only []; split_ifs <;> exact ⟨_, rfl⟩)

theorem seqEnforce_ss_none (store : List (String × RLWindow)) (t : Int)
    (hw : storeGet store "session-server" = none) :
    seqEnforceRateLimit RATE_LIMITS_SESSION_SERVER "session-server" store t
      = (storeSet store "session-server" ⟨t, 1⟩, t) := by
  unfold seqEnforceRateLimit
  rw [hw]
  simp only [RATE_LIMITS_SESSION_SERVER]
  split_ifs <;> dsimp only at * <;> first | rfl | omega

theorem seqEnforce_ss_some (store : List (String × RLWindow)) (t : Int) (w : RLWindow)
    (hw : storeGet store "session-server" = some w) (hcount : w.count = 1) :
    ∃ adm, seqEnforceRateLimit RATE_LIMITS_SESSION_SERVER "session-server" store t
        = (storeSet store "session-server" ⟨adm, 1⟩, adm)
      ∧ w.windowStart + 30000 ≤ adm ∧ t ≤ adm := by
  unfold seqEnforceRateLimit
  rw [hw]
  simp only [RATE_LIMITS_SESSION_SERVER]
  split_ifs <;> (try dsimp only at *) <;>
    first
    | (refine ⟨t, rfl, by omega, le_refl t⟩)
    | (exact ⟨t + (30000 - (t - w.windowStart)), rfl, by omega, by omega⟩)
    | (exfalso; omega)

theorem rateLimitClassify_cases (m u : String) (cfg : RateLimitCfg) (sfx : String)
    (h : rateLimitClassify m u = some (cfg, sfx)) :
    (cfg = RATE_LIMITS_SESSION_SERVER ∧ sfx = "session-server")
    ∨ (sfx = "GET" ∨ sfx = "POST" ∨ sfx = "PUT") := by
  unfold rateLimitClassify at h
  dsimp only at h
  split_ifs at h with h1 h2 h3 h4 <;>
    simp only [Option.some.injEq, Prod.mk.injEq] at h
  · exact Or.inl ⟨h.1.symm, h.2.symm⟩
  · exact Or.inr (Or.inl (h.2 ▸ h2))
  · exact Or.inr (Or.inr (Or.inl (h.2 ▸ h3)))
  · exact Or.inr (Or.inr (Or.inr (h.2 ▸ h4)))

def SeqInv (s : SeqTraceState) : Prop :=
  List.Pairwise (fun a b => a + 30000 ≤ b) (sessionServerAdmissions s)
  ∧ match storeGet s.store "session-server" with
    | none => sessionServerAdmissions s = []
    | some w => w.count = 1
        ∧ (sessionServerAdmissions s).getLast? = some w.windowStart
        ∧ w.windowStart ≤ s.time
        ∧ ∀ a ∈ sessionServerAdmissions s, a ≤ w.windowStart

theorem sessionServerAdmissions_append (store : List (String × RLWindow)) (time : Int)
    (adms : List (String × Int)) (sfx : String) (t : Int) :
    sessionServerAdmissions ⟨store, time, adms ++ [(sfx, t)]⟩
      = sessionServerAdmissions ⟨store, time, adms⟩
        ++ (if sfx = "session-server" then [t] else []) := by
  by_cases hs : sfx = "session-server" <;>
    simp [sessionServerAdmissions, List.filter_append, hs]

theorem sessionServerAdmissions_store_time (store store' : List (String × RLWindow))
    (time time' : Int) (adms : List (String × Int)) :
    sessionServerAdmissions ⟨store', time', adms⟩ = sessionServerAdmissions ⟨store, time, adms⟩ := rfl

theorem seqStepCall_inv (s : SeqTraceState) (c : SeqCall) (h : SeqInv s) :
    SeqInv (seqStepCall s c) := by
  rcases s with ⟨store, time, adms⟩
  have hd : (0 : Int) ≤ (c.delayMs : Int) := Int.ofNat_nonneg _
  obtain ⟨hp, hm⟩ := h
  rcases hcl : rateLimitClassify c.method c.url with _ | ⟨cfg, sfx⟩
  · -- unthrottled method: only the clock advances
    simp only [seqStepCall, hcl]
    refine ⟨hp, ?_⟩
    cases hw : storeGet store "session-server" with
    | none => simp only [hw] at hm ⊢; exact hm
    | some w =>
      simp only [hw] at hm ⊢
      exact ⟨hm.1, hm.2.1, by have := hm.2.2.1; omega, hm.2.2.2⟩
  · by_cases hsfx : sfx = "session-server"
    · subst hsfx
      have hcfg : cfg = RATE_LIMITS_SESSION_SERVER := by
        rcases rateLimitClassify_cases _ _ _ _ hcl with ⟨h1, -⟩ | h1
        · exact h1
        · rcases h1 with h1 | h1 | h1 <;> exact absurd h1 (by decide)
      subst hcfg
      simp only [seqStepCall, hcl]
      cases hw : storeGet store "session-server" with
      | none =>
        simp only [hw] at hm
        rw [seqEnforce_ss_none store _ hw]
        simp only [SeqInv, sessionServerAdmissions] at hm ⊢
        simp only [storeGet_storeSet_self]
        rw [List.filter_append, List.map_append, hm]
        simp
      | some w =>
        simp only [hw] at hm
        obtain ⟨hc1, hlast, hws, hle⟩ := hm
        obtain ⟨adm, heq, hgap, htle⟩ :=
          seqEnforce_ss_some store (time + (c.delayMs : Int)) w hw hc1
        rw [heq]
        simp only [SeqInv, sessionServerAdmissions] at hp hlast hle ⊢
        simp only [storeGet_storeSet_self]
        constructor
        · rw [List.filter_append, List.map_append]
          simp only [List.pairwise_append]
          refine ⟨hp, by simp, ?_⟩
          intro a ha b hb
          simp at hb
          rw [hb]
          have := hle a ha
          omega
        · refine ⟨trivial, ?_, by omega, ?_⟩
          · rw [List.filter_append, List.map_append]
            simp
          · intro a ha
            rw [List.filter_append, List.map_append] at ha
            simp at ha
            rcases ha with ha | ha
            · have := hle a (by simpa using ha)
              omega
            · omega
    · -- a different window key: the session-server window is untouched
      simp only [seqStepCall, hcl]
      obtain ⟨w', hw'⟩ := seqEnforce_store_shape cfg sfx store (time + (c.delayMs : Int))
      have hts := seqEnforce_now_le cfg sfx store (time + (c.delayMs : Int))
      rcases hres : seqEnforceRateLimit cfg sfx store (time + (c.delayMs : Int)) with ⟨store', adm⟩
      rw [hres] at hw' hts
      dsimp only at hw' hts
      subst hw'
      have hget : storeGet (storeSet store sfx w') "session-server"
          = storeGet store "session-server" :=
        storeGet_storeSet_ne store sfx "session-server" w' (fun he => hsfx he.symm)
      simp only [SeqInv, sessionServerAdmissions] at hp hm ⊢
      simp only [hget]
      have hfilter : ∀ l : List (String × Int),
          (l ++ [(sfx, adm)]).filter (fun p => p.1 = "session-server")
            = l.filter (fun p => p.1 = "session-server") := by
        intro l
        rw [List.filter_append]
        simp [hsfx]
      constructor
      · rw [hfilter]; exact hp
      · cases hw : storeGet store "session-server" with
        | none => simp only [hw] at hm ⊢; rw [hfilter]; exact hm
        | some w =>
          simp only [hw] at hm ⊢
          obtain ⟨hc1, hlast, hws, hle⟩ := hm
          rw [hfilter]
          exact ⟨hc1, hlast, by omega, hle⟩

theorem seqRun_inv (calls : List SeqCall) (t0 : Int) : SeqInv (seqRun calls t0) := by
  have h0 : SeqInv ⟨[], t0, []⟩ := by
    refine ⟨by simp [sessionServerAdmissions], ?_⟩
    simp [storeGet, List.find?, sessionServerAdmissions]
  suffices h : ∀ (l : List SeqCall) (s : SeqTraceState), SeqInv s → SeqInv (l.foldl seqStepCall s) by
    exact h calls _ h0
  intro l
  induction l with
  | nil => intro s hs; exact hs
  | cons c rest ih => intro s hs; exact ih _ (seqStepCall_inv s c hs)

theorem pairwise_gap_span (l : List Int)
    (hp : List.Pairwise (fun a b => a + 30000 ≤ b) l) (t : Int) :
    l.countP (fun a => decide (t ≤ a) && decide (a < t + 30000)) ≤ 1 := by
  induction l with
  | nil => simp
  | cons a rest ih =>
    rw [List.pairwise_cons] at hp
    by_cases hin : (decide (t ≤ a) && decide (a < t + 30000)) = true
    · have hrest : rest.countP (fun a => decide (t ≤ a) && decide (a < t + 30000)) = 0 := by
        rw [List.countP_eq_zero]
        intro b hb
        have := hp.1 b hb
        simp only [Bool.and_eq_true, decide_eq_true_eq] at hin ⊢
        omega
      rw [List.countP_cons, hrest]
      simp [hin]
    · rw [List.countP_cons]
      simp only [hin]
      simpa using ih hp.2

theorem rateLimitKey_inj (credentialHash a b : String)
    (h : rateLimitKey credentialHash a = rateLimitKey credentialHash b) : a = b := by
  have hd := congrArg String.data h
  simp only [rateLimitKey, String.data_append] at hd
  exact String.ext (List.append_cancel_left hd)

/-- C8: a call whose normalized path is the session-creation endpoint is
classified into the dedicated 1-request-per-30000ms class (for every HTTP
method, and also when the path has a version prefix), stored under a map
key distinct from the POST class's key; and in every serialized acquisition
trace — containing arbitrarily many POST/GET/PUT calls to other endpoints —
consecutive session-server admissions are at least 30000 ms apart, so at
most one session-creation call is admitted in any 30000 ms span. -/
theorem sessionServer_dedicated_cap_C8 :
    (∀ method : String, rateLimitClassify method "/session-server"
        = some (RATE_LIMITS_SESSION_SERVER, "session-server"))
    ∧ rateLimitClassify "POST" "/v1/session-server"
        = some (RATE_LIMITS_SESSION_SERVER, "session-server")
    ∧ RATE_LIMITS_SESSION_SERVER = ⟨1, 30000⟩
    ∧ (∀ credentialHash : String,
        rateLimitKey credentialHash "session-server" ≠ rateLimitKey credentialHash "POST")
    ∧ (∀ (calls : List SeqCall) (t0 : Int),
        List.Pairwise (fun a b => a + 30000 ≤ b)
          (sessionServerAdmissions (seqRun calls t0)))
    ∧ (∀ (calls : List SeqCall) (t0 spanStart : Int),
        (sessionServerAdmissions (seqRun calls t0)).countP
          (fun a => decide (spanStart ≤ a) && decide (a < spanStart + 30000)) ≤ 1) := by
  refine ⟨fun m => rfl, by decide, rfl, ?_, ?_, ?_⟩
  · intro hsh he
    exact absurd (rateLimitKey_inj hsh _ _ he) (by decide)
  · intro calls t0
    exact (seqRun_inv calls t0).1
  · intro calls t0 spanStart
    exact pairwise_gap_span _ (seqRun_inv calls t0).1 spanStart

/-- C3 witness: the amended theorem instantiated at a concrete request. -/
theorem part008Request_acquires_before_send_C3_witness :
    (BunqHttpClientRequestPart008 "https://api.bunq.com/v1" "POST" "/installation").any isHttpSend
      = true :=
  (part008Request_acquires_before_send_C3.1 "https://api.bunq.com/v1" "POST" "/installation").2

/-- C9 witness: the theorem instantiated at a concrete transport failure. -/
theorem handshake_error_kinds_C9_witness :
    isApiCallFailed (createInstallationResult (Except.error ⟨500⟩)) = true
    ∧ isApiCallFailed (registerDeviceResult (Except.error ⟨500⟩)) = true
    ∧ isApiCallFailed (createSessionResult (Except.error ⟨500⟩)) = true :=
  handshake_error_kinds_C9.2.2.2.1 ⟨500⟩

/-- C8 witness: the cap instantiated at a concrete serialized trace that
mixes session-server calls with POST and GET business calls. -/
theorem sessionServer_dedicated_cap_C8_witness :
    (sessionServerAdmissions (seqRun
        [⟨5, "POST", "/session-server"⟩, ⟨1, "POST", "/payments"⟩,
         ⟨1, "GET", "/payments"⟩, ⟨1, "POST", "/session-server"⟩] 0)).countP
        (fun a => decide ((0 : Int) ≤ a) && decide (a < 0 + 30000)) ≤ 1 :=
  sessionServer_dedicated_cap_C8.2.2.2.2.2
    [⟨5, "POST", "/session-server"⟩, ⟨1, "POST", "/payments"⟩,
     ⟨1, "GET", "/payments"⟩, ⟨1, "POST", "/session-server"⟩] 0 0
